import Mathlib

/-!
# Verification of the `dom-to-pptx` Style-to-Shape Mapping Engine

A shallow embedding of the repository's core (`src/utils.js`, `src/index.js`)
into Lean 4, together with theorems settling the specification claims.

Conventions of the embedding:
* JS strings are Lean `String`s; all character-level work is done on `String.data`.
* JS numbers are modelled as `Option ℚ` where `none` stands for `NaN`
  (finite doubles arising here are exact in ℚ for the parsing layer); the
  analytic functions `Math.sqrt` / `Math.atan2` are modelled over `ℝ`.
* Asynchronous rasterization requests (`svgToPng`, `getProcessedImage`) are
  external collaborators per the spec and are modelled as oracle parameters.
-/

namespace DomToPptx

/-! ## JS string and number primitives -/

/-- The whitespace characters recognised by the JS `\s` class / `trim` /
`parseFloat` for the ASCII inputs occurring here. -/
def isJsWs (c : Char) : Bool :=
  c = ' ' || c = '\t' || c = '\n' || c = '\r' || c = (Char.ofNat 11) || c = (Char.ofNat 12)

def isDigitCh (c : Char) : Bool := '0' ≤ c && c ≤ '9'

def isHexCh (c : Char) : Bool :=
  isDigitCh c || ('a' ≤ c && c ≤ 'f') || ('A' ≤ c && c ≤ 'F')

def dropWhileList (p : Char → Bool) : List Char → List Char
  | [] => []
  | c :: cs => if p c then dropWhileList p cs else c :: cs

def takeWhileList (p : Char → Bool) : List Char → List Char
  | [] => []
  | c :: cs => if p c then c :: takeWhileList p cs else []

theorem dropWhileList_length_le (p : Char → Bool) (l : List Char) :
    (dropWhileList p l).length ≤ l.length := by
  induction l with
  | nil => simp [dropWhileList]
  | cons c cs ih =>
    by_cases h : p c = true
    · simp only [dropWhileList, h, if_true, List.length_cons]
      omega
    · simp [dropWhileList, h]

/-- JS `String.prototype.trim` (both ends). -/
def jsTrim (s : String) : String :=
  ⟨(dropWhileList isJsWs (dropWhileList isJsWs s.data).reverse).reverse⟩

/-- JS `String.prototype.trimStart`. -/
def jsTrimStart (s : String) : String := ⟨dropWhileList isJsWs s.data⟩

/-- JS `String.prototype.trimEnd`. -/
def jsTrimEnd (s : String) : String := ⟨(dropWhileList isJsWs s.data.reverse).reverse⟩

/-- JS `a.startsWith(b)`. -/
def jsStartsWith (s pre : String) : Bool := pre.data.isPrefixOf s.data

/-- JS `a.includes(b)` (substring containment). -/
def jsIncludes (s sub : String) : Bool :=
  go s.data
where
  go : List Char → Bool
    | [] => sub.data.isPrefixOf ([] : List Char)
    | c :: cs => sub.data.isPrefixOf (c :: cs) || go cs

/-- JS `String.prototype.toUpperCase` (ASCII range, sufficient here). -/
def jsToUpper (s : String) : String := ⟨s.data.map Char.toUpper⟩

/-- JS `String.prototype.toLowerCase` (ASCII range, sufficient here). -/
def jsToLower (s : String) : String := ⟨s.data.map Char.toLower⟩

def digitsToNat : List Char → ℕ :=
  List.foldl (fun acc c => acc * 10 + (c.toNat - '0'.toNat)) 0

/-- JS `parseInt(s)` (radix 10; the hexadecimal `0x` prefix never occurs in the
computed-style values this program feeds to `parseInt`). `none` is `NaN`. -/
def jsParseInt (s : String) : Option ℤ :=
  let cs := dropWhileList isJsWs s.data
  let (sign, cs) : ℤ × List Char :=
    match cs with
    | '-' :: rest => (-1, rest)
    | '+' :: rest => (1, rest)
    | _ => (1, cs)
  let ds := takeWhileList isDigitCh cs
  if ds.isEmpty then none else some (sign * (digitsToNat ds : ℤ))

/-- JS `parseFloat(s)` (decimal with optional fraction and exponent;
`none` is `NaN`). -/
def jsParseFloat (s : String) : Option ℚ :=
  let cs := dropWhileList isJsWs s.data
  let (sign, cs) : ℚ × List Char :=
    match cs with
    | '-' :: rest => (-1, rest)
    | '+' :: rest => (1, rest)
    | _ => (1, cs)
  let ip := takeWhileList isDigitCh cs
  let cs := cs.drop ip.length
  let (fp, cs) : List Char × List Char :=
    match cs with
    | '.' :: rest => (takeWhileList isDigitCh rest, rest.drop (takeWhileList isDigitCh rest).length)
    | _ => ([], cs)
  if ip.isEmpty && fp.isEmpty then none
  else
    let mantissa : ℚ := (digitsToNat ip : ℚ) + (digitsToNat fp : ℚ) / (10 ^ fp.length : ℕ)
    let expPart : ℚ :=
      match cs with
      | 'e' :: rest | 'E' :: rest =>
        let (esign, rest) : ℤ × List Char :=
          match rest with
          | '-' :: r => (-1, r)
          | '+' :: r => (1, r)
          | _ => (1, rest)
        let eds := takeWhileList isDigitCh rest
        if eds.isEmpty then 1 else (10 : ℚ) ^ (esign * (digitsToNat eds : ℤ))
      | _ => 1
    some (sign * mantissa * expPart)

/-- The token list produced by the JS global regex match `/[\d\.]+/g`:
maximal runs of digits and dots (`acc` holds the reversed current run). -/
def numericRuns (s : String) : List String :=
  go [] s.data
where
  emit (acc : List Char) : List String :=
    if acc.isEmpty then [] else [⟨acc.reverse⟩]
  go (acc : List Char) : List Char → List String
    | [] => emit acc
    | c :: cs =>
      if isDigitCh c || c = '.' then go (c :: acc) cs
      else emit acc ++ go [] cs

/-- JS `(n).toString(16)` for a non-negative integer (lowercase hex digits). -/
def natToHexString (n : ℕ) : String := ⟨Nat.toDigits 16 n⟩

/-- JS `Math.round` (half-up, matching `⌊q + 1/2⌋`). -/
def jsRound (q : ℚ) : ℤ := ⌊q + 1/2⌋

/-- Splitting on the regex `/,(?![^(]*\))/`: split at a comma unless the text
after it contains a `)` before any `(` (i.e. the comma sits inside an open
parenthesised group). -/
def splitTopLevelCommas (s : String) : List String :=
  go s.data [] |>.map (fun l => ⟨l⟩)
where
  insideParens : List Char → Bool
    | [] => false
    | '(' :: _ => false
    | ')' :: _ => true
    | _ :: cs => insideParens cs
  go : List Char → List Char → List (List Char)
    | [], acc => [acc.reverse]
    | c :: cs, acc =>
      if c = ',' && !insideParens cs then acc.reverse :: go cs []
      else go cs (c :: acc)

/-! ## `src/utils.js`: `parseColor` -/

/-- The result object of `parseColor`: `hex = none` models a `null` hex,
`opacity = none` models `NaN`. -/
structure ColorObj where
  hex : Option String
  opacity : Option ℚ
deriving DecidableEq, Repr

/-- JS int32 coercion applied by the bitwise shift operators (`NaN` maps
to `0`). -/
def jsToInt32 (n : Option ℤ) : ℤ :=
  match n with
  | none => 0
  | some v => (v + 2 ^ 31) % 2 ^ 32 - 2 ^ 31

/-- `parseColor` from `src/utils.js` lines 3–22. -/
def parseColor (str : String) : ColorObj :=
  if str = "" || str = "transparent" || jsStartsWith str "rgba(0, 0, 0, 0)" then
    ⟨none, some 0⟩
  else if jsStartsWith str "#" then
    let hex : String := ⟨str.data.drop 1⟩
    let hex := if hex.data.length = 3 then ⟨hex.data.flatMap (fun c => [c, c])⟩ else hex
    ⟨some (jsToUpper hex), some 1⟩
  else
    let m := numericRuns str
    if m.length ≥ 3 then
      let r := jsToInt32 (jsParseInt (m.getD 0 ""))
      let g := jsToInt32 (jsParseInt (m.getD 1 ""))
      let a := if m.length > 3 then jsParseFloat (m.getD 3 "") else some 1
      -- ((1 << 24) + (r << 16) + (g << 8) + b).toString(16).slice(1).toUpperCase();
      -- `b` is never fed through a bitwise operator, so `NaN` propagates into
      -- the sum and renders as the string "NaN".
      let hexStr :=
        match jsParseInt (m.getD 2 "") with
        | none => "NaN"
        | some b =>
          let v : ℤ := 2 ^ 24 + jsToInt32 (some (r * 2 ^ 16)) + jsToInt32 (some (g * 2 ^ 8)) + b
          if v < 0 then "-" ++ natToHexString (-v).toNat else natToHexString v.toNat
      ⟨some (jsToUpper ⟨hexStr.data.drop 1⟩), a⟩
    else ⟨none, some 0⟩

/-! ## JS regex matchers specialised to the literal regexes of the source -/

/-- Try a pattern at every start position, left to right (unanchored
first-match semantics of JS `String.prototype.match`). -/
def scanFirst (f : List Char → Option α) : List Char → Option α
  | [] => f []
  | c :: cs =>
    match f (c :: cs) with
    | some r => some r
    | none => scanFirst f cs

/-- First match of `/#(?:[0-9a-fA-F]{3}){1,2}/` (6 hex digits preferred,
else 3). -/
def hexColorMatch (s : String) : Option String :=
  scanFirst
    (fun cs =>
      match cs with
      | '#' :: rest =>
        let hs := takeWhileList isHexCh rest
        if hs.length ≥ 6 then some ⟨'#' :: hs.take 6⟩
        else if hs.length ≥ 3 then some ⟨'#' :: hs.take 3⟩
        else none
      | _ => none)
    s.data

/-- First match of `/rgba?\(.*?\)/` (lazy up to the first `)`; the JS dot
does not cross line terminators). -/
def rgbLazyMatch (s : String) : Option String :=
  scanFirst
    (fun cs =>
      match cs with
      | 'r' :: 'g' :: 'b' :: rest =>
        let (pre, rest) : List Char × List Char :=
          match rest with
          | 'a' :: '(' :: r2 => (['r', 'g', 'b', 'a', '('], r2)
          | '(' :: r2 => (['r', 'g', 'b', '('], r2)
          | _ => ([], rest)
        if pre.isEmpty then none
        else
          let inner := takeWhileList (fun c => c ≠ ')' && c ≠ '\n' && c ≠ '\r') rest
          match rest.drop inner.length with
          | ')' :: _ => some ⟨pre ++ inner ++ [')']⟩
          | _ => none
      | _ => none)
    s.data

/-- First match of `/blur\(([\d\.]+)px\)/`, returning the first capture. -/
def blurMatch (s : String) : Option String :=
  scanFirst
    (fun cs =>
      if ['b', 'l', 'u', 'r', '('].isPrefixOf cs then
        let rest := cs.drop 5
        let ds := takeWhileList (fun c => isDigitCh c || c = '.') rest
        if ds.isEmpty then none
        else if ['p', 'x', ')'].isPrefixOf (rest.drop ds.length) then some ⟨ds⟩
        else none
      else none)
    s.data

/-- Match one signed/unsigned `[\d\.]+px` token at the head; returns the
numeric capture (sign included) and the remainder. -/
def pxNumberAt (signed : Bool) (cs : List Char) : Option (List Char × List Char) :=
  let (sgn, cs') : List Char × List Char :=
    match cs with
    | '-' :: r => if signed then (['-'], r) else ([], cs)
    | _ => ([], cs)
  let ds := takeWhileList (fun c => isDigitCh c || c = '.') cs'
  if ds.isEmpty then none
  else
    match cs'.drop ds.length with
    | 'p' :: 'x' :: rest => some (sgn ++ ds, rest)
    | _ => none

/-- Match of `/(rgba?\([^\)]+\)|#[0-9a-fA-F]+)\s+(-?[\d\.]+)px\s+(-?[\d\.]+)px\s+([\d\.]+)px/`
at one start position: returns the four captures (color, x, y, blur). -/
def shadowEntryAt (cs : List Char) : Option (String × String × String × String) :=
  let color? : Option (List Char × List Char) :=
    match cs with
    | '#' :: rest =>
      let hs := takeWhileList isHexCh rest
      if hs.isEmpty then none else some ('#' :: hs, rest.drop hs.length)
    | 'r' :: 'g' :: 'b' :: rest =>
      let (pre, r2) : List Char × List Char :=
        match rest with
        | 'a' :: '(' :: r2 => (['r', 'g', 'b', 'a', '('], r2)
        | '(' :: r2 => (['r', 'g', 'b', '('], r2)
        | _ => ([], rest)
      if pre.isEmpty then none
      else
        let inner := takeWhileList (· ≠ ')') r2
        if inner.isEmpty then none
        else
          match r2.drop inner.length with
          | ')' :: rest' => some (pre ++ inner ++ [')'], rest')
          | _ => none
    | _ => none
  match color? with
  | none => none
  | some (color, rest) =>
    let ws1 := takeWhileList isJsWs rest
    if ws1.isEmpty then none
    else
      match pxNumberAt true (rest.drop ws1.length) with
      | none => none
      | some (xCap, rest) =>
        let ws2 := takeWhileList isJsWs rest
        if ws2.isEmpty then none
        else
          match pxNumberAt true (rest.drop ws2.length) with
          | none => none
          | some (yCap, rest) =>
            let ws3 := takeWhileList isJsWs rest
            if ws3.isEmpty then none
            else
              match pxNumberAt false (rest.drop ws3.length) with
              | none => none
              | some (bCap, _) => some (⟨color⟩, ⟨xCap⟩, ⟨yCap⟩, ⟨bCap⟩)

/-- Unanchored first match of the shadow-entry regex. -/
def shadowEntryMatch (s : String) : Option (String × String × String × String) :=
  scanFirst shadowEntryAt s.data

/-- Match of `/(.*?)\s+(\d+(\.\d+)?%?)$/`: the earliest split point whose
whitespace run is followed by a number (optional fraction, optional `%`)
that ends the string; returns (color capture, position capture). -/
def stopPosMatch (s : String) : Option (String × String) :=
  go s.data 0
where
  tailNumberAt : List Char → Bool
    | cs =>
      let ds := takeWhileList isDigitCh cs
      if ds.isEmpty then false
      else
        let rest := cs.drop ds.length
        let rest :=
          match rest with
          | '.' :: r =>
            let fs := takeWhileList isDigitCh r
            if fs.isEmpty then rest else r.drop fs.length
          | _ => rest
        match rest with
        | [] => true
        | ['%'] => true
        | _ => false
  go : List Char → ℕ → Option (String × String)
    | [], _ => none
    | c :: cs, i =>
      if isJsWs c then
        let ws := takeWhileList isJsWs cs
        let after := cs.drop ws.length
        if tailNumberAt after then some (⟨s.data.take i⟩, ⟨after⟩)
        else go cs (i + 1)
      else go cs (i + 1)

/-- The capture of `/linear-gradient\((.*)\)/`: text between the first
`linear-gradient(` and the last `)` (greedy dot; line terminators do not
occur in computed `background-image` values). -/
def linearGradientContent (s : String) : Option String :=
  go s.data
where
  pat : List Char := "linear-gradient(".data
  cutLastParen (cs : List Char) : Option (List Char) :=
    let tailLen := (takeWhileList (· ≠ ')') cs.reverse).length
    if tailLen = cs.length then none else some (cs.take (cs.length - tailLen - 1))
  go : List Char → Option String
    | [] => none
    | c :: cs =>
      if pat.isPrefixOf (c :: cs) then
        (cutLastParen ((c :: cs).drop pat.length)).map (fun l => ⟨l⟩)
      else go cs

/-! ## The computed-style snapshot -/

/-- JS numbers with `NaN`: `none` is `NaN`. -/
abbrev JsNum := Option ℚ

/-- JS truthiness of a number (`0` and `NaN` are falsy). -/
def jsTruthyNum (x : JsNum) : Bool :=
  match x with
  | some v => v ≠ 0
  | none => false

/-- JS truthiness of a nullable string (`null` and `""` are falsy). -/
def jsTruthyStr (x : Option String) : Bool :=
  match x with
  | some s => s ≠ ""
  | none => false

/-- JS `a || b` on strings. -/
def jsOrStr (a b : String) : String := if a = "" then b else a

/-- JS `o || d` where `o` is a nullable string. -/
def jsOrOptStr (o : Option String) (d : String) : String :=
  match o with
  | some s => if s = "" then d else s
  | none => d

/-- The computed-style snapshot consumed by the engine: exactly the
properties the source reads from `window.getComputedStyle`. -/
structure Style where
  display : String := ""
  visibility : String := ""
  opacity : String := ""
  zIndex : String := ""
  transform : String := ""
  backgroundColor : String := ""
  backgroundImage : String := ""
  backgroundClip : String := ""
  webkitBackgroundClip : String := ""
  borderColor : String := ""
  borderWidth : String := ""
  borderRadius : String := ""
  borderTopWidth : String := ""
  borderRightWidth : String := ""
  borderBottomWidth : String := ""
  borderLeftWidth : String := ""
  borderTopColor : String := ""
  borderRightColor : String := ""
  borderBottomColor : String := ""
  borderLeftColor : String := ""
  borderTopStyle : String := ""
  borderRightStyle : String := ""
  borderBottomStyle : String := ""
  borderLeftStyle : String := ""
  boxShadow : String := ""
  filter : String := ""
  color : String := ""
  fontFamily : String := ""
  fontSize : String := ""
  fontWeight : String := ""
  fontStyle : String := ""
  textDecoration : String := ""
  textTransform : String := ""
  textAlign : String := ""
  alignItems : String := ""
  justifyContent : String := ""
  paddingTop : String := ""
  paddingRight : String := ""
  paddingBottom : String := ""
  paddingLeft : String := ""
  overflow : String := ""
deriving DecidableEq, Repr

/-! ## `src/utils.js`: remaining helpers -/

/-- `getGradientFallbackColor` from `src/utils.js` lines 25–36. -/
def getGradientFallbackColor (bgImage : String) : Option String :=
  if bgImage = "" then none
  else
    match hexColorMatch bgImage with
    | some h => some h
    | none =>
      match rgbLazyMatch bgImage with
      | some r => some r
      | none => none

def pxToInch : ℚ := 1 / 96

/-- `getPadding` from `src/utils.js` lines 38–46:
`[top, right, bottom, left]` in inches. -/
def getPadding (style : Style) (scale : ℚ) : List ℚ :=
  [ ((jsParseFloat style.paddingTop).getD 0) * pxToInch * scale,
    ((jsParseFloat style.paddingRight).getD 0) * pxToInch * scale,
    ((jsParseFloat style.paddingBottom).getD 0) * pxToInch * scale,
    ((jsParseFloat style.paddingLeft).getD 0) * pxToInch * scale ]

/-- `getSoftEdges` from `src/utils.js` lines 48–53. Outer `none` is the JS
`null`; the inner `JsNum` carries the parsed blur radius. -/
def getSoftEdges (filterStr : String) (scale : ℚ) : Option JsNum :=
  if filterStr = "" || filterStr = "none" then none
  else
    match blurMatch filterStr with
    | some cap => some ((jsParseFloat cap).map (fun v => v * (3/4) * scale))
    | none => none

/-- The object returned by `getTextStyle`. -/
structure TextStyle where
  color : String
  fontFace : String
  fontSize : JsNum
  bold : Bool
  italic : Bool
  underline : Bool
deriving DecidableEq, Repr

/-- `getTextStyle` from `src/utils.js` lines 55–75. -/
def getTextStyle (style : Style) (scale : ℚ) : TextStyle :=
  let colorObj := parseColor style.color
  let bgClip := jsOrStr style.webkitBackgroundClip style.backgroundClip
  let colorObj :=
    if colorObj.opacity = some 0 && bgClip = "text" then
      match getGradientFallbackColor style.backgroundImage with
      | some fallback => parseColor fallback
      | none => colorObj
    else colorObj
  { color := jsOrOptStr colorObj.hex "000000",
    fontFace :=
      ⟨(takeWhileList (· ≠ ',') style.fontFamily.data).filter
        (fun c => c ≠ Char.ofNat 39 && c ≠ Char.ofNat 34)⟩,
    fontSize := (jsParseFloat style.fontSize).map (fun v => v * (3/4) * scale),
    bold :=
      match jsParseInt style.fontWeight with
      | some w => w ≥ 600
      | none => false,
    italic := style.fontStyle = "italic",
    underline := jsIncludes style.textDecoration "underline" }

/-- The observable outcome of `getRotation` from `src/utils.js` lines 88–95:
`.throws` is the `TypeError` raised when the transform string has no `(`
(then `split('(')[1]` is `undefined`); `.zero` is a literal `return 0`;
`.rot a b` is `Math.round(Math.atan2(b, a) * 180 / π)` on the two leading
parsed components. -/
inductive RotationResult where
  | throws
  | zero
  | rot (a b : JsNum)
deriving DecidableEq, Repr

/-- JS `s.split(c)` on a single-character separator. -/
def splitAllChar (ch : Char) (s : String) : List String :=
  go s.data []
where
  go : List Char → List Char → List String
    | [], acc => [⟨acc.reverse⟩]
    | c :: cs, acc => if c = ch then (⟨acc.reverse⟩ : String) :: go cs [] else go cs (c :: acc)

/-- `getRotation` from `src/utils.js` lines 88–95. -/
def getRotation (transformStr : String) : RotationResult :=
  if transformStr = "" || transformStr = "none" then .zero
  else if !(transformStr.data.contains '(') then .throws
  else
    let afterParen := (transformStr.data.dropWhile (· ≠ '(')).drop 1
    let seg := takeWhileList (· ≠ '(') afterParen          -- split('(')[1]
    let seg := takeWhileList (· ≠ ')') seg                 -- .split(')')[0]
    let values := splitAllChar ',' ⟨seg⟩                    -- .split(',')
    if values.length < 4 then .zero
    else .rot (jsParseFloat (values.getD 0 "")) (jsParseFloat (values.getD 1 ""))

/-- The raw fields extracted by `getVisibleShadow` (`src/utils.js` lines
152–179) from the selected box-shadow entry, before the analytic
Cartesian→polar conversion. -/
structure ShadowRaw where
  colorStr : String
  x : JsNum
  y : JsNum
  blur : JsNum
deriving DecidableEq, Repr

/-- The entry-selection logic of `getVisibleShadow`: split the box-shadow
list on top-level commas, skip entries starting with the serialized
transparent black `rgba(0, 0, 0, 0)`, and return the raw fields of the
first entry the shadow regex matches. -/
def getVisibleShadowRaw (shadowStr : String) : Option ShadowRaw :=
  if shadowStr = "" || shadowStr = "none" then none
  else go (splitTopLevelCommas shadowStr)
where
  go : List String → Option ShadowRaw
    | [] => none
    | e :: rest =>
      let e := jsTrim e
      if jsStartsWith e "rgba(0, 0, 0, 0)" then go rest
      else
        match shadowEntryMatch e with
        | some (c, xs, ys, bs) =>
          some ⟨c, jsParseFloat xs, jsParseFloat ys, jsParseFloat bs⟩
        | none => go rest

/-- The shadow descriptor's color: `colorObj.hex || "000000"`. -/
def shadowColorOut (r : ShadowRaw) : String := jsOrOptStr (parseColor r.colorStr).hex "000000"

/-- The shadow descriptor's opacity: `colorObj.opacity`. -/
def shadowOpacityOut (r : ShadowRaw) : JsNum := (parseColor r.colorStr).opacity

/-- The shadow descriptor's blur: `blur * 0.75 * scale`. -/
def shadowBlurOut (r : ShadowRaw) (scale : ℚ) : JsNum :=
  r.blur.map (fun b => b * (3/4) * scale)

/-- JS `Math.atan2 y x`, as the argument of the complex number `x + y·i`
(range `(-π, π]`). -/
noncomputable def atan2 (y x : ℝ) : ℝ := Complex.arg ⟨x, y⟩

/-- `Math.sqrt(x*x + y*y)`: the distance of `getVisibleShadow`. -/
noncomputable def shadowDistance (x y : ℝ) : ℝ := Real.sqrt (x * x + y * y)

/-- `let angle = Math.atan2(y, x) * 180/π; if (angle < 0) angle += 360;`:
the angle of `getVisibleShadow`, in degrees. -/
noncomputable def shadowAngleDeg (x y : ℝ) : ℝ :=
  let a := atan2 y x * (180 / Real.pi)
  if a < 0 then a + 360 else a

/-- The shadow descriptor's offset: `distance * 0.75 * scale`. -/
noncomputable def shadowOffsetOut (x y : ℝ) (scale : ℚ) : ℝ :=
  shadowDistance x y * (3/4) * (scale : ℝ)

/-! ## `src/utils.js`: `generateGradientSVG`, `generateBlurredSVG` -/

/-- One `<stop>` of the generated gradient: the three interpolated
attribute strings. -/
structure GStop where
  offset : String
  color : String
  opacity : String
deriving DecidableEq, Repr

/-- The linear-gradient axis and stop list assembled by
`generateGradientSVG` (`src/utils.js` lines 181–220) before the SVG markup
is serialized and base64-encoded (the serialization is injective in these
fields, so claims about the parser are claims about this record). -/
structure GradientParse where
  x1 : String
  y1 : String
  x2 : String
  y2 : String
  stops : List GStop
deriving DecidableEq, Repr

/-- The parsing part of `generateGradientSVG` from `src/utils.js` lines
181–208: `none` is the `return null` of a failed `linear-gradient` match. -/
def generateGradientSVGParse (bgString : String) : Option GradientParse :=
  match linearGradientContent bgString with
  | none => none
  | some content =>
    let parts := (splitTopLevelCommas content).map jsTrim
    let p0 := parts.getD 0 ""
    let (x1, y1, x2, y2, startIdx) : String × String × String × String × ℕ :=
      if jsIncludes p0 "to right" then ("0%", "0%", "100%", "0%", 1)
      else if jsIncludes p0 "to left" then ("100%", "0%", "0%", "0%", 1)
      else if jsIncludes p0 "to top" then ("0%", "100%", "0%", "0%", 1)
      else if jsIncludes p0 "to bottom" then ("0%", "0%", "0%", "100%", 1)
      else ("0%", "0%", "0%", "100%", 0)
    let stopParts := parts.drop startIdx
    let n := stopParts.length
    let stops := stopParts.enum.map (fun p =>
      let idx := p.1
      let part := p.2
      -- default offset Math.round((idx / (stopParts.length - 1)) * 100) + "%":
      -- a single offsetless stop divides 0 by 0, rendering "NaN%"
      let defOffset :=
        if n = 1 then "NaN%"
        else toString (jsRound ((idx : ℚ) / ((n : ℚ) - 1) * 100)) ++ "%"
      let (color, offset) : String × String :=
        match stopPosMatch part with
        | some (c, off) => (c, off)
        | none => (part, defOffset)
      let (opacity, color) : String × String :=
        if jsIncludes color "rgba" then
          let rgba := numericRuns color
          if rgba.length > 3 then
            (rgba.getD 3 "",
             "rgb(" ++ rgba.getD 0 "" ++ "," ++ rgba.getD 1 "" ++ "," ++ rgba.getD 2 "" ++ ")")
          else ("1", color)
        else ("1", color)
      (⟨offset, color, opacity⟩ : GStop))
    some ⟨x1, y1, x2, y2, stops⟩

/-- The data assembled by `generateBlurredSVG` (`src/utils.js` lines
222–256); the SVG serialization is kept structured, as the rasterization
backend treats it as an opaque payload. -/
structure BlurredSVG where
  w : ℚ
  h : ℚ
  color : Option String
  radius : ℚ
  blurPx : ℚ
  isCircle : Bool
  padding : ℚ
deriving DecidableEq, Repr

/-- `generateBlurredSVG` from `src/utils.js` lines 222–256. -/
def generateBlurredSVG (w h : ℚ) (color : Option String) (radius blurPx : ℚ) : BlurredSVG :=
  { w := w, h := h, color := color, radius := radius, blurPx := blurPx,
    isCircle := decide (radius ≥ min w h / 2 - 1 ∧ |w - h| < 2),
    padding := blurPx * 3 }

/-! ## The visual-node model (the Layout/Style Source interface) -/

/-- `getBoundingClientRect()` snapshot (viewport pixels; `x = left` and
`y = top` in the DOM, but both accessors appear in the source so both are
carried). -/
structure Rect where
  x : ℚ
  y : ℚ
  left : ℚ
  top : ℚ
  width : ℚ
  height : ℚ
deriving DecidableEq, Repr

/-- A visual node: element (`nodeType = 1`) or text node (`nodeType = 3`),
with its computed style, boxes and ordered `childNodes`. -/
inductive Node where
  | mk (nodeType : ℕ) (tagName : String) (style : Style) (rect : Rect)
       (offsetWidth offsetHeight : ℚ) (src : String) (nodeValue : String)
       (childNodes : List Node)
deriving Repr

def Node.nodeType : Node → ℕ
  | .mk t _ _ _ _ _ _ _ _ => t

def Node.tagName : Node → String
  | .mk _ tag _ _ _ _ _ _ _ => tag

def Node.style : Node → Style
  | .mk _ _ st _ _ _ _ _ _ => st

def Node.rect : Node → Rect
  | .mk _ _ _ r _ _ _ _ _ => r

def Node.offsetWidth : Node → ℚ
  | .mk _ _ _ _ ow _ _ _ _ => ow

def Node.offsetHeight : Node → ℚ
  | .mk _ _ _ _ _ oh _ _ _ => oh

def Node.src : Node → String
  | .mk _ _ _ _ _ _ s _ _ => s

def Node.nodeValue : Node → String
  | .mk _ _ _ _ _ _ _ v _ => v

def Node.childNodes : Node → List Node
  | .mk _ _ _ _ _ _ _ _ cs => cs

mutual

/-- DOM `textContent`: a text node's value, or the concatenation of all
descendant text. -/
def Node.textContent : Node → String
  | .mk t _ _ _ _ _ _ v cs => if t = 3 then v else Node.textContentList cs

def Node.textContentList : List Node → String
  | [] => ""
  | c :: cs => c.textContent ++ Node.textContentList cs

end

/-- DOM `children`: the element children among `childNodes`. -/
def Node.children (n : Node) : List Node := n.childNodes.filter (fun c => c.nodeType = 1)

/-! ## `src/utils.js`: `isTextContainer` -/

/-- The `isInline` predicate of `isTextContainer`. -/
def isInlineEl (el : Node) : Bool :=
  jsIncludes el.style.display "inline" ||
    ["SPAN", "B", "STRONG", "EM", "I", "A", "SMALL"].contains el.tagName

/-- `isTextContainer` from `src/utils.js` lines 77–86. -/
def isTextContainer (node : Node) : Bool :=
  let hasText := (jsTrim node.textContent).length > 0
  if !hasText then false
  else
    let children := node.children
    if children.isEmpty then true
    else children.all isInlineEl

/-! ## `src/index.js`: data model of the render queue -/

/-- Per-slide layout configuration (`src/index.js` lines 67–73). -/
structure LayoutConfig where
  rootX : ℚ
  rootY : ℚ
  scale : ℚ
  offX : ℚ
  offY : ℚ
deriving DecidableEq, Repr

/-- The asynchronous rasterization backends (`svgToPng` of `src/utils.js`
and `getProcessedImage` of `src/image-processor.js`): external
collaborators per the spec, modelled as oracles; `none` is a failed /
CORS-blocked request resolving to no payload. -/
structure Oracles where
  svgToPng : Node → Option String
  getProcessedImage : String → ℚ → ℚ → ℚ → Option String

inductive ShapeType where
  | rect
  | roundRect
  | ellipse
deriving DecidableEq, Repr

/-- The `line` options of a uniform border. -/
structure LineOpts where
  color : String
  width : ℚ
  dashType : String
deriving DecidableEq, Repr

structure BorderSide where
  width : ℚ
  color : String
deriving DecidableEq, Repr

structure BorderSides where
  top : BorderSide
  right : BorderSide
  bottom : BorderSide
  left : BorderSide
deriving DecidableEq, Repr

/-- The descriptor returned by the border resolver: `type` is `"uniform"`
(with native-stroke `options`), `"composite"` (with per-side data) or
`"none"`. -/
structure BorderInfo where
  type : String
  options : Option LineOpts
  sides : Option BorderSides
deriving DecidableEq, Repr

/-- Modelled from the spec: `getBorderInfo` is imported from `./utils.js`
by `src/index.js` but absent from the provided sources. Spec §4.6 (Border
Resolver): "if all four sides share identical width/color/style → Uniform
descriptor (rendered as the shape's native stroke). Otherwise → Composite
descriptor" with per-side `{widthPx, colorHex}`; a uniform but invisible
border (zero width, `none` style, or no parseable color) yields neither. -/
def getBorderInfo (style : Style) (scale : ℚ) : BorderInfo :=
  let wOf := fun (s : String) => (jsParseFloat s).getD 0
  let cOf := fun (s : String) => jsOrOptStr (parseColor s).hex "000000"
  let sides : BorderSides :=
    ⟨⟨wOf style.borderTopWidth, cOf style.borderTopColor⟩,
     ⟨wOf style.borderRightWidth, cOf style.borderRightColor⟩,
     ⟨wOf style.borderBottomWidth, cOf style.borderBottomColor⟩,
     ⟨wOf style.borderLeftWidth, cOf style.borderLeftColor⟩⟩
  let uniform :=
    sides.top = sides.right ∧ sides.right = sides.bottom ∧ sides.bottom = sides.left ∧
    style.borderTopStyle = style.borderRightStyle ∧
    style.borderRightStyle = style.borderBottomStyle ∧
    style.borderBottomStyle = style.borderLeftStyle
  if uniform then
    if sides.top.width > 0 ∧ style.borderTopStyle ≠ "none" ∧
        jsTruthyStr (parseColor style.borderTopColor).hex then
      ⟨"uniform",
       some ⟨cOf style.borderTopColor, sides.top.width * (3/4) * scale,
             if style.borderTopStyle = "dashed" then "dash"
             else if style.borderTopStyle = "dotted" then "dot" else "solid"⟩,
       none⟩
    else ⟨"none", none, none⟩
  else ⟨"composite", none, some sides⟩

/-- The optional uniform-border argument handed to `generateGradientSVG`. -/
structure BorderPair where
  color : Option String
  width : JsNum
deriving DecidableEq, Repr

/-- Image payloads: rasterization results and structured vector documents
(the Presentation File Writer treats them as opaque data). -/
inductive ImagePayload where
  | png (s : String)
  | processed (s : String)
  | gradientSVG (g : GradientParse) (w h radius : ℚ) (border : Option BorderPair)
  | blurredSVG (b : BlurredSVG)
  | borderOverlay (w h radius : ℚ) (sides : BorderSides)
deriving DecidableEq, Repr

/-- A shape fill: `{color, transparency}` or `{type: "none"}`. -/
inductive Fill where
  | colorFill (color : String) (transparency : JsNum)
  | noneFill
deriving DecidableEq, Repr

/-- Options of a shape item (`margin`, `wrap`, `autoFit` are the constants
`0`, `true`, `false` on every text item and are not repeated here). -/
structure ShapeOpts where
  x : ℚ
  y : ℚ
  w : ℚ
  h : ℚ
  rotate : Option RotationResult
  fill : Fill
  line : Option LineOpts
  shadow : Option (Option ShadowRaw)
  rectRadius : Option ℚ
deriving DecidableEq, Repr

structure ImageOpts where
  data : ImagePayload
  x : ℚ
  y : ℚ
  w : ℚ
  h : ℚ
  rotate : RotationResult
deriving DecidableEq, Repr

/-- Options of one text run (the bullet run sets only color and font
size; the remaining keys are then absent). -/
structure RunOpts where
  color : String
  fontSize : JsNum
  fontFace : Option String
  bold : Option Bool
  italic : Option Bool
  underline : Option Bool
deriving DecidableEq, Repr

def RunOpts.ofTextStyle (t : TextStyle) : RunOpts :=
  ⟨t.color, t.fontSize, some t.fontFace, some t.bold, some t.italic, some t.underline⟩

structure TextRun where
  text : String
  options : RunOpts
deriving DecidableEq, Repr

/-- Options of a text item; for a text merged into a shape, `shape`,
`fill`, `line`, `shadow`, `rectRadius` carry the spread `shapeOpts`. -/
structure TextOpts where
  shape : Option ShapeType
  x : ℚ
  y : ℚ
  w : ℚ
  h : ℚ
  fill : Option Fill
  line : Option LineOpts
  shadow : Option (Option ShadowRaw)
  rectRadius : Option ℚ
  align : String
  valign : String
  inset : List ℚ
  rotate : RotationResult
deriving DecidableEq, Repr

inductive RenderPayload where
  | shape (shapeType : ShapeType) (options : ShapeOpts)
  | image (options : ImageOpts)
  | text (textParts : List TextRun) (options : TextOpts)
deriving DecidableEq, Repr

/-- One render instruction: the tagged payload plus the two sort keys. -/
structure RenderItem where
  zIndex : ℤ
  domOrder : ℕ
  payload : RenderPayload
deriving DecidableEq, Repr

/-- The value of `createRenderItem` when it does not return `null`. -/
structure RenderResult where
  items : List RenderItem
  stopRecursion : Bool
deriving DecidableEq, Repr

/-- `style.zIndex !== "auto" ? parseInt(style.zIndex) : 0`
(`src/index.js` line 115). A computed `z-index` is `"auto"` or an integer
string, so the `NaN` fallback to `0` is unreachable on real inputs. -/
def zIndexOfStyle (z : String) : ℤ :=
  if z = "auto" then 0 else (jsParseInt z).getD 0

/-- `textVal.replace(/[\n\r\t]+/g, " ")`: each maximal run of newlines,
carriage returns and tabs becomes one space (`inRun` records that the
current run already emitted its space). -/
def collapseNlTabRuns (inRun : Bool) : List Char → List Char
  | [] => []
  | c :: cs =>
    if c = '\n' || c = '\r' || c = '\t' then
      if inRun then collapseNlTabRuns true cs
      else ' ' :: collapseNlTabRuns true cs
    else c :: collapseNlTabRuns false cs

/-- Emission of a finished whitespace run for `collapseWsRuns`: empty
runs vanish, a single whitespace character stays itself, longer runs
become one space. -/
def emitWsRun (acc : List Char) : List Char :=
  match acc with
  | [] => []
  | [w] => [w]
  | _ => [' ']

/-- `.replace(/\s{2,}/g, " ")`: each maximal run of two or more
whitespace characters becomes one space; a lone whitespace character is
kept as is (`acc` holds the reversed current whitespace run). -/
def collapseWsRuns (acc : List Char) : List Char → List Char
  | [] => emitWsRun acc
  | c :: cs =>
    if isJsWs c then collapseWsRuns (c :: acc) cs
    else emitWsRun acc ++ (c :: collapseWsRuns [] cs)

/-- The whitespace sanitization applied to every text run
(`src/index.js` line 232). -/
def sanitizeText (s : String) : String :=
  ⟨collapseWsRuns [] (collapseNlTabRuns false s.data)⟩

/-- JS `v || d` on numbers (`0` and `NaN` fall back to the default). -/
def jsOrQ (x : JsNum) (d : ℚ) : ℚ :=
  match x with
  | some v => if v = 0 then d else v
  | none => d

/-- The shape-kind selection of `src/index.js` lines 374–386: ellipse for
near-circles, else roundRect with a clamped corner-radius fraction when
the radius is positive, else rect. -/
def shapeSelect (borderRadius widthPx heightPx : ℚ) : ShapeType × Option ℚ :=
  if borderRadius ≥ min widthPx heightPx / 2 - 1 ∧ |widthPx - heightPx| < 2 then
    (.ellipse, none)
  else if borderRadius > 0 then
    (.roundRect, some (min 1 (borderRadius / (min widthPx heightPx / 2))))
  else (.rect, none)

/-- Modelled from the spec: `generateCompositeBorderSVG` is imported from
`./utils.js` by `src/index.js` but absent from the provided sources. Spec
§4.6: composite borders on rounded shapes "produce one vector-document
overlay depicting all four arcs/edges"; the overlay is modelled as the
structured datum it depicts. -/
def generateCompositeBorderSVG (w h radius : ℚ) (sides : BorderSides) : Option ImagePayload :=
  some (.borderOverlay w h radius sides)

/-- `createCompositeBorderItems` from `src/index.js` lines 453–532: four
independently positioned thin rectangles, one zIndex above the base. -/
def createCompositeBorderItems (sides : BorderSides) (x y w h scale : ℚ)
    (zIndex : ℤ) (domOrder : ℕ) : List RenderItem :=
  let topItems : List RenderItem :=
    if sides.top.width > 0 then
      [⟨zIndex + 1, domOrder, .shape .rect
        ⟨x, y, w, sides.top.width * pxToInch * scale, none,
         .colorFill sides.top.color none, none, none, none⟩⟩]
    else []
  let rightItems : List RenderItem :=
    if sides.right.width > 0 then
      [⟨zIndex + 1, domOrder, .shape .rect
        ⟨x + w - sides.right.width * pxToInch * scale, y,
         sides.right.width * pxToInch * scale, h, none,
         .colorFill sides.right.color none, none, none, none⟩⟩]
    else []
  let bottomItems : List RenderItem :=
    if sides.bottom.width > 0 then
      [⟨zIndex + 1, domOrder, .shape .rect
        ⟨x, y + h - sides.bottom.width * pxToInch * scale, w,
         sides.bottom.width * pxToInch * scale, none,
         .colorFill sides.bottom.color none, none, none, none⟩⟩]
    else []
  let leftItems : List RenderItem :=
    if sides.left.width > 0 then
      [⟨zIndex + 1, domOrder, .shape .rect
        ⟨x, y, sides.left.width * pxToInch * scale, h, none,
         .colorFill sides.left.color none, none, none, none⟩⟩]
    else []
  topItems ++ rightItems ++ bottomItems ++ leftItems

/-- The block-level text data assembled inside `createRenderItem`. -/
structure TextPayload where
  text : List TextRun
  align : String
  valign : String
  inset : List ℚ
deriving DecidableEq, Repr

/-! ## `src/index.js`: `createRenderItem` -/

/-- The text-run assembly of `src/index.js` lines 209–267 (run inside the
`isText` branch; `x`/`w` have already received the list-item bullet shift
by the caller). -/
def assembleTextPayload (style : Style) (bgColorObj : ColorObj) (node : Node)
    (scale : ℚ) : Option TextPayload :=
  let isList := style.display = "list-item"
  let bulletParts : List TextRun :=
    if isList then
      [⟨"â€¢ ",
        ⟨jsOrOptStr (parseColor style.color).hex "000000",
         (jsParseFloat style.fontSize).map (fun v => v * (3/4) * scale),
         none, none, none, none⟩⟩]
    else []
  let nChildren := node.childNodes.length
  let runParts : List TextRun := node.childNodes.enum.filterMap (fun p =>
    let index := p.1
    let child := p.2
    let textVal := if child.nodeType = 3 then child.nodeValue else child.textContent
    let nodeStyle := if child.nodeType = 1 then child.style else style
    let textVal := sanitizeText textVal
    -- both arms of the `index === 0` conditional call trimStart
    let textVal := if index = 0 then jsTrimStart textVal else textVal
    let textVal := if index = nChildren - 1 then jsTrimEnd textVal else textVal
    let textVal :=
      if nodeStyle.textTransform = "uppercase" then jsToUpper textVal
      else if nodeStyle.textTransform = "lowercase" then jsToLower textVal
      else textVal
    if textVal.length > 0 then
      some ⟨textVal, RunOpts.ofTextStyle (getTextStyle nodeStyle scale)⟩
    else none)
  let textParts := bulletParts ++ runParts
  if textParts.isEmpty then none
  else
    let align := jsOrStr style.textAlign "left"
    let align := if align = "start" then "left" else align
    let align := if align = "end" then "right" else align
    let valign := "top"
    let valign := if style.alignItems = "center" then "middle" else valign
    let align :=
      if style.justifyContent = "center" ∧ jsIncludes style.display "flex" then "center"
      else align
    let pt := (jsParseFloat style.paddingTop).getD 0
    let pb := (jsParseFloat style.paddingBottom).getD 0
    let valign := if |pt - pb| < 2 ∧ jsTruthyStr bgColorObj.hex then "middle" else valign
    let padding := getPadding style scale
    let padding := if align = "center" ∧ valign = "middle" then [0, 0, 0, 0] else padding
    some ⟨textParts, align, valign, padding⟩

/-- `createRenderItem` from `src/index.js` lines 102–448. `none` is the
JS `return null`; `parentStyle?` carries `getComputedStyle(node.parentElement)`
(the slide root's parent lies outside the model). -/
def createRenderItem (o : Oracles) (cfg : LayoutConfig) (parentStyle? : Option Style)
    (node : Node) (domOrder : ℕ) : Option RenderResult :=
  if node.nodeType ≠ 1 then none
  else if node.style.display = "none" || node.style.visibility = "hidden" ||
      node.style.opacity = "0" then none
  else if node.rect.width = 0 || node.rect.height = 0 then none
  else
  let style := node.style
  let rect := node.rect
  let zIndex := zIndexOfStyle style.zIndex
  let rotation := getRotation style.transform
  let elementOpacity := jsParseFloat style.opacity
  let widthPx := if node.offsetWidth ≠ 0 then node.offsetWidth else rect.width
  let heightPx := if node.offsetHeight ≠ 0 then node.offsetHeight else rect.height
  let unrotatedW := widthPx * pxToInch * cfg.scale
  let unrotatedH := heightPx * pxToInch * cfg.scale
  let centerX := rect.left + rect.width / 2
  let centerY := rect.top + rect.height / 2
  let x := cfg.offX + (centerX - cfg.rootX) * pxToInch * cfg.scale - unrotatedW / 2
  let y := cfg.offY + (centerY - cfg.rootY) * pxToInch * cfg.scale - unrotatedH / 2
  let w := unrotatedW
  let h := unrotatedH
  if jsToUpper node.tagName = "SVG" then
    let items : List RenderItem :=
      match o.svgToPng node with
      | some png => [⟨zIndex, domOrder, .image ⟨.png png, x, y, w, h, rotation⟩⟩]
      | none => []
    some ⟨items, true⟩
  else if node.tagName = "IMG" then
    let borderRadius := (jsParseFloat style.borderRadius).getD 0
    let borderRadius :=
      if borderRadius = 0 then
        match parentStyle? with
        | some ps =>
          if ps.overflow ≠ "visible" then (jsParseFloat ps.borderRadius).getD 0
          else borderRadius
        | none => borderRadius
      else borderRadius
    let items : List RenderItem :=
      match o.getProcessedImage node.src widthPx heightPx borderRadius with
      | some data => [⟨zIndex, domOrder, .image ⟨.processed data, x, y, w, h, rotation⟩⟩]
      | none => []
    some ⟨items, true⟩
  else
  let bgColorObj := parseColor style.backgroundColor
  let bgClip := jsOrStr style.webkitBackgroundClip style.backgroundClip
  let isBgClipText := bgClip = "text"
  let hasGradient :=
    !isBgClipText && style.backgroundImage ≠ "" &&
      jsIncludes style.backgroundImage "linear-gradient"
  let borderColorObj := parseColor style.borderColor
  let borderWidth := jsParseFloat style.borderWidth
  let hasBorder :=
    (match borderWidth with | some v => decide (v > 0) | none => false) &&
      jsTruthyStr borderColorObj.hex
  let borderInfo := getBorderInfo style cfg.scale
  let hasUniformBorder := borderInfo.type = "uniform"
  let hasCompositeBorder := borderInfo.type = "composite"
  let shadowStr := style.boxShadow
  let hasShadow := shadowStr ≠ "" && shadowStr ≠ "none"
  let borderRadius := (jsParseFloat style.borderRadius).getD 0
  let softEdge := getSoftEdges style.filter cfg.scale
  let isImageWrapper :=
    match node.children.find? (fun c => c.tagName = "IMG") with
    | some imgChild =>
      let childW := if imgChild.offsetWidth ≠ 0 then imgChild.offsetWidth else imgChild.rect.width
      let childH := if imgChild.offsetHeight ≠ 0 then imgChild.offsetHeight else imgChild.rect.height
      decide (childW ≥ widthPx - 2) && decide (childH ≥ heightPx - 2)
    | none => false
  let isText := isTextContainer node
  let isList := style.display = "list-item"
  let bulletShift := jsOrQ (jsParseFloat style.fontSize) 16 * pxToInch * cfg.scale * (3/2)
  let x := if isText && isList then x - bulletShift else x
  let w := if isText && isList then w + bulletShift else w
  let textPayload : Option TextPayload :=
    if isText then assembleTextPayload style bgColorObj node cfg.scale else none
  let softTruthy :=
    match softEdge with
    | some v => jsTruthyNum v
    | none => false
  let bgHexTruthy := jsTruthyStr bgColorObj.hex
  if hasGradient || (softTruthy && bgHexTruthy && !isImageWrapper) then
    let (bgData, padIn) : Option ImagePayload × ℚ :=
      if softTruthy then
        let softVal : ℚ :=
          match softEdge with
          | some (some v) => v
          | _ => 0
        let svgInfo := generateBlurredSVG widthPx heightPx bgColorObj.hex borderRadius softVal
        (some (.blurredSVG svgInfo), svgInfo.padding * pxToInch * cfg.scale)
      else
        ((generateGradientSVGParse style.backgroundImage).map (fun g =>
          .gradientSVG g widthPx heightPx borderRadius
            (if hasBorder then some ⟨borderColorObj.hex, borderWidth⟩ else none)), 0)
    let bgItems : List RenderItem :=
      match bgData with
      | some payload =>
        [⟨zIndex, domOrder,
          .image ⟨payload, x - padIn, y - padIn, w + padIn * 2, h + padIn * 2, rotation⟩⟩]
      | none => []
    let textItems : List RenderItem :=
      match textPayload with
      | some tp =>
        [⟨zIndex + 1, domOrder,
          .text tp.text
            ⟨none, x, y, w, h, none, none, none, none, tp.align, tp.valign, tp.inset, rotation⟩⟩]
      | none => []
    let borderItems : List RenderItem :=
      if hasCompositeBorder then
        match borderInfo.sides with
        | some sides => createCompositeBorderItems sides x y w h cfg.scale zIndex domOrder
        | none => []
      else []
    some ⟨bgItems ++ textItems ++ borderItems, textPayload.isSome⟩
  else if (bgHexTruthy && !isImageWrapper) || hasUniformBorder || hasCompositeBorder ||
      hasShadow || textPayload.isSome then
    let finalAlpha : JsNum := do
      let e ← elementOpacity
      let b ← bgColorObj.opacity
      pure (e * b)
    let transparency : JsNum := finalAlpha.map (fun fa => (1 - fa) * 100)
    let fill : Fill :=
      if bgHexTruthy && !isImageWrapper then .colorFill (bgColorObj.hex.getD "") transparency
      else .noneFill
    let line := if hasUniformBorder then borderInfo.options else none
    let shadow : Option (Option ShadowRaw) :=
      if hasShadow then some (getVisibleShadowRaw shadowStr) else none
    -- lines 371–373 recompute borderRadius/widthPx/heightPx with the same
    -- expressions as above
    let sel := shapeSelect borderRadius widthPx heightPx
    let shapeType := sel.1
    let rectRadius := sel.2
    let shapeOpts : ShapeOpts := ⟨x, y, w, h, some rotation, fill, line, shadow, rectRadius⟩
    let mainItem : RenderItem :=
      match textPayload with
      | some tp =>
        ⟨zIndex, domOrder,
         .text tp.text
           ⟨some shapeType, x, y, w, h, some fill, line, shadow, rectRadius,
            tp.align, tp.valign, tp.inset, rotation⟩⟩
      | none => ⟨zIndex, domOrder, .shape shapeType shapeOpts⟩
    let borderItems : List RenderItem :=
      if hasCompositeBorder then
        match borderInfo.sides with
        | some sides =>
          match generateCompositeBorderSVG widthPx heightPx borderRadius sides with
          | some overlay => [⟨zIndex + 1, domOrder, .image ⟨overlay, x, y, w, h, rotation⟩⟩]
          | none => []
        | none => []
      else []
    some ⟨[mainItem] ++ borderItems, textPayload.isSome⟩
  else
    some ⟨[], textPayload.isSome⟩

/-! ## `src/index.js`: traversal, z-order resolution and the entry point -/

theorem Node.sizeOf_childNodes_lt (n : Node) : sizeOf n.childNodes < sizeOf n := by
  cases n
  simp only [Node.childNodes, Node.mk.sizeOf_spec]
  omega

mutual

/-- The `collect` closure of `processSlide` (`src/index.js` lines 78–87):
assign a domOrder, create render items, stop or recurse. -/
def collectNode (o : Oracles) (cfg : LayoutConfig) (parentStyle? : Option Style)
    (n : Node) (ctr : ℕ) : List RenderItem × ℕ :=
  let order := ctr
  match createRenderItem o cfg parentStyle? n order with
  | some r =>
    if r.stopRecursion then (r.items, ctr + 1)
    else
      let rest := collectChildren o cfg n.style n.childNodes (ctr + 1)
      (r.items ++ rest.1, rest.2)
  | none =>
    let rest := collectChildren o cfg n.style n.childNodes (ctr + 1)
    rest
  termination_by sizeOf n
  decreasing_by
    all_goals exact Node.sizeOf_childNodes_lt n

/-- The `for (const child of node.children)` loop: `children` is the
element sublist of `childNodes`, so iterating `childNodes` and skipping
non-elements is the same traversal (and only visited nodes consume a
domOrder slot). -/
def collectChildren (o : Oracles) (cfg : LayoutConfig) (parentStyle : Style) :
    List Node → ℕ → List RenderItem × ℕ
  | [], c => ([], c)
  | child :: rest, c =>
    if child.nodeType = 1 then
      let a := collectNode o cfg (some parentStyle) child c
      let b := collectChildren o cfg parentStyle rest a.2
      (a.1 ++ b.1, b.2)
    else collectChildren o cfg parentStyle rest c
  termination_by l _ => sizeOf l
  decreasing_by
    all_goals simp only [List.cons.sizeOf_spec]
    all_goals omega

end

/-- The comparator `(a, b) => a.zIndex !== b.zIndex ? a.zIndex - b.zIndex
: a.domOrder - b.domOrder` as the total preorder it induces. -/
def itemLE (a b : RenderItem) : Bool :=
  a.zIndex < b.zIndex || (a.zIndex = b.zIndex && a.domOrder ≤ b.domOrder)

/-- `renderQueue.sort(...)` (`src/index.js` lines 90–93): JS `Array#sort`
is stable and the comparator is a total preorder, modelled by a stable
merge sort. -/
def sortRenderQueue (l : List RenderItem) : List RenderItem :=
  l.mergeSort itemLE

def PPTX_WIDTH_IN : ℚ := 10

def PPTX_HEIGHT_IN : ℚ := 45 / 8

/-- The per-slide `layoutConfig` (`src/index.js` lines 56–73). -/
def layoutConfigFor (rootRect : Rect) : LayoutConfig :=
  let contentWidthIn := rootRect.width * pxToInch
  let contentHeightIn := rootRect.height * pxToInch
  let scale := min (PPTX_WIDTH_IN / contentWidthIn) (PPTX_HEIGHT_IN / contentHeightIn)
  ⟨rootRect.x, rootRect.y, scale,
   (PPTX_WIDTH_IN - contentWidthIn * scale) / 2,
   (PPTX_HEIGHT_IN - contentHeightIn * scale) / 2⟩

/-- `processSlide` (`src/index.js` lines 55–100): one traversal pass, then
one sort; the sorted queue is handed to the Presentation File Writer in
order. -/
def processSlide (o : Oracles) (root : Node) : List RenderItem :=
  let cfg := layoutConfigFor root.rect
  sortRenderQueue (collectNode o cfg none root 0).1

/-- One entry of the `target` argument of `exportToPptx`: a selector
string, an element reference, or a null reference. -/
inductive Target where
  | selector (s : String)
  | element (n : Node)
  | nullRef

/-- `typeof el === "string" ? document.querySelector(el) : el`, with the
falsy check `if (!root)`. -/
def resolveRoot (doc : String → Option Node) : Target → Option Node
  | .selector s => doc s
  | .element n => some n
  | .nullRef => none

/-- `exportToPptx` (`src/index.js` lines 27–47): wrap a single target in
an array, then per element resolve the root, skip unresolvable roots
(`continue`, after a non-fatal console diagnostic) and add one slide per
resolved root, in input order. The returned value is the slide list handed
to the file writer. -/
def exportToPptx (doc : String → Option Node) (o : Oracles)
    (target : Target ⊕ List Target) : List (List RenderItem) :=
  let elements :=
    match target with
    | .inl t => [t]
    | .inr ts => ts
  elements.filterMap (fun el => (resolveRoot doc el).map (processSlide o))

/-! ## Concrete instances used by the theorems -/

def blankStyle : Style := {}

/-- Oracles whose rasterization requests all fail (every request resolves
to "no payload"). -/
def noOracles : Oracles := ⟨fun _ => none, fun _ _ _ _ => none⟩

def cfg0 : LayoutConfig := ⟨0, 0, 1, 0, 0⟩

def rect0 : Rect := ⟨0, 0, 0, 0, 0, 0⟩

def textNodeOf (s : String) : Node := .mk 3 "" blankStyle rect0 0 0 "" s []

/-- An inline `SPAN` carrying its own visible background and border. -/
def styledSpanStyle : Style :=
  { blankStyle with
    display := "inline",
    backgroundColor := "rgb(255, 0, 0)",
    borderWidth := "2px",
    borderColor := "rgb(0, 0, 255)",
    borderTopStyle := "solid",
    color := "rgb(0, 0, 0)",
    fontFamily := "Arial",
    fontSize := "16px",
    fontWeight := "400",
    fontStyle := "normal",
    textDecoration := "none" }

def styledSpan : Node :=
  .mk 1 "SPAN" styledSpanStyle ⟨10, 0, 10, 0, 40, 20⟩ 40 20 "" "" [textNodeOf "world"]

def plainBlockStyle : Style :=
  { blankStyle with
    display := "block",
    visibility := "visible",
    opacity := "1",
    zIndex := "auto",
    color := "rgb(0, 0, 0)",
    fontFamily := "Arial",
    fontSize := "16px",
    fontWeight := "400",
    fontStyle := "normal",
    textDecoration := "none",
    backgroundColor := "rgba(0, 0, 0, 0)",
    textAlign := "start" }

/-- A block with text content whose only element child is the styled
inline span: all element children are inline-level, and one of them
carries a visible background and border. -/
def textWithStyledChild : Node :=
  .mk 1 "DIV" plainBlockStyle ⟨0, 0, 0, 0, 100, 50⟩ 100 50 "" ""
    [textNodeOf "Hello ", styledSpan]

def hiddenNode : Node :=
  .mk 1 "DIV" { blankStyle with display := "none" } ⟨0, 0, 0, 0, 100, 50⟩ 100 50 "" "" []

def zeroWidthNode : Node :=
  .mk 1 "DIV" { blankStyle with display := "block", opacity := "1" }
    ⟨0, 0, 0, 0, 0, 50⟩ 0 50 "" "" []

/-- A style whose text color is fully transparent and which does not use
the `background-clip: text` gradient technique. -/
def transparentTextStyle : Style :=
  { blankStyle with
    color := "transparent",
    backgroundClip := "border-box",
    fontFamily := "Arial",
    fontSize := "16px",
    fontWeight := "400",
    fontStyle := "normal",
    textDecoration := "none" }

/-- A plain text-only block: one text child, no element children. -/
def plainTextDiv : Node :=
  .mk 1 "DIV" plainBlockStyle ⟨0, 0, 0, 0, 100, 50⟩ 100 50 "" "" [textNodeOf "Hi"]

/-- The raw entry extracted from the spec's shadow example. -/
def shadowExampleRaw : ShadowRaw := ⟨"rgba(0,0,0,0.5)", some 4, some 3, some 5⟩

/-! ## Helper lemmas -/

theorem createRenderItem_none_of_hidden (o : Oracles) (cfg : LayoutConfig)
    (ps : Option Style) (n : Node) (d : ℕ)
    (h : n.style.display = "none" ∨ n.style.visibility = "hidden" ∨ n.style.opacity = "0") :
    createRenderItem o cfg ps n d = none := by
  unfold createRenderItem
  split
  · rfl
  · split
    · rfl
    · rename_i hguard
      rcases h with h | h | h <;> simp_all

theorem createRenderItem_none_of_zeroRect (o : Oracles) (cfg : LayoutConfig)
    (ps : Option Style) (n : Node) (d : ℕ)
    (h : n.rect.width = 0 ∨ n.rect.height = 0) :
    createRenderItem o cfg ps n d = none := by
  unfold createRenderItem
  split
  · rfl
  · split
    · rfl
    · split
      · rfl
      · rename_i hguard
        rcases h with h | h <;> simp_all

theorem parseColor_hex_none_opacity (s : String) :
    (parseColor s).hex = none → (parseColor s).opacity = some 0 := by
  unfold parseColor
  dsimp only
  split_ifs <;> intro h <;> simp_all

theorem parseColor_null_hex_characterization (s : String) :
    parseColor s = ⟨none, some 0⟩ ↔
      (s = "" ∨ s = "transparent" ∨ jsStartsWith s "rgba(0, 0, 0, 0)" = true ∨
        (jsStartsWith s "#" = false ∧ (numericRuns s).length < 3)) := by
  unfold parseColor
  dsimp only
  by_cases hg : (s = "" || s = "transparent" || jsStartsWith s "rgba(0, 0, 0, 0)") = true
  · rw [if_pos hg]
    simp only [Bool.or_eq_true, decide_eq_true_eq] at hg
    refine ⟨fun _ => ?_, fun _ => rfl⟩
    rcases hg with (h | h) | h
    · exact Or.inl h
    · exact Or.inr (Or.inl h)
    · exact Or.inr (Or.inr (Or.inl h))
  · rw [if_neg hg]
    simp only [Bool.or_eq_true, decide_eq_true_eq, not_or] at hg
    obtain ⟨⟨hn1, hn2⟩, hn3⟩ := hg
    by_cases hh : jsStartsWith s "#" = true
    · rw [if_pos hh]
      refine ⟨fun hEq => ?_, fun hrhs => ?_⟩
      · simp at hEq
      · rcases hrhs with h | h | h | ⟨hh', _⟩
        · exact absurd h hn1
        · exact absurd h hn2
        · exact absurd h hn3
        · rw [hh] at hh'
          cases hh'
    · rw [if_neg hh]
      by_cases hm : (numericRuns s).length ≥ 3
      · rw [if_pos hm]
        refine ⟨fun hEq => ?_, fun hrhs => ?_⟩
        · simp at hEq
        · rcases hrhs with h | h | h | ⟨_, hlen⟩
          · exact absurd h hn1
          · exact absurd h hn2
          · exact absurd h hn3
          · omega
      · rw [if_neg hm]
        refine ⟨fun _ => ?_, fun _ => rfl⟩
        exact Or.inr (Or.inr (Or.inr ⟨by simpa using hh, by omega⟩))

theorem jsOrOptStr_default_ne_empty (o : Option String) :
    jsOrOptStr o "000000" ≠ "" := by
  unfold jsOrOptStr
  match o with
  | none => simp
  | some s =>
    by_cases h : s = "" <;> simp [h]

theorem itemLE_iff (a b : RenderItem) :
    itemLE a b = true ↔
      a.zIndex < b.zIndex ∨ (a.zIndex = b.zIndex ∧ a.domOrder ≤ b.domOrder) := by
  simp [itemLE]

theorem itemLE_trans (a b c : RenderItem)
    (h1 : itemLE a b) (h2 : itemLE b c) : itemLE a c := by
  rw [itemLE_iff] at h1 h2 ⊢
  omega

theorem itemLE_total (a b : RenderItem) : itemLE a b || itemLE b a := by
  rw [Bool.or_eq_true, itemLE_iff, itemLE_iff]
  omega

/-! ## The claims -/

/-- C2 counterexample: the claim states `parseColor("rgba(0,0,0,0)")`
returns a null hex, but the transparent-black guard compares against the
browser-serialized form with spaces, so the unspaced string falls through
to the rgb path and produces the concrete hex `"000000"`. -/
theorem parseColor_rgba_unspaced_concrete_hex :
    parseColor "rgba(0,0,0,0)" = ⟨some "000000", some 0⟩ ∧
      (parseColor "rgba(0,0,0,0)").hex ≠ none := by
  have h1 : parseColor "rgba(0,0,0,0)" = ⟨some "000000", some 0⟩ := by
    with_unfolding_all rfl
  refine ⟨h1, ?_⟩
  rw [h1]
  simp

/-- C2 amended: `parseColor("#fff")` expands to `{FFFFFF, 1}`; the null
hex with opacity 0 is produced exactly for the empty string,
`"transparent"`, strings starting with the browser-serialized
`"rgba(0, 0, 0, 0)"` (with spaces), and strings that neither start with
`"#"` nor contain at least three numeric tokens (unparseable colors such
as `"red"` fall to the same result); other fully transparent color
strings such as `"rgba(0,0,0,0)"` or `"rgba(255, 0, 0, 0)"` parse to a
concrete hex with opacity 0. -/
theorem parseColor_roundTrip :
    parseColor "#fff" = ⟨some "FFFFFF", some 1⟩ ∧
      parseColor "rgba(0, 0, 0, 0)" = ⟨none, some 0⟩ ∧
      parseColor "transparent" = ⟨none, some 0⟩ ∧
      parseColor "" = ⟨none, some 0⟩ ∧
      parseColor "red" = ⟨none, some 0⟩ ∧
      parseColor "rgba(0,0,0,0)" = ⟨some "000000", some 0⟩ ∧
      parseColor "rgba(255, 0, 0, 0)" = ⟨some "FF0000", some 0⟩ ∧
      (∀ s : String, parseColor s = ⟨none, some 0⟩ ↔
        (s = "" ∨ s = "transparent" ∨ jsStartsWith s "rgba(0, 0, 0, 0)" = true ∨
          (jsStartsWith s "#" = false ∧ (numericRuns s).length < 3))) := by
  refine ⟨rfl, rfl, rfl, rfl, ?_, ?_, ?_, parseColor_null_hex_characterization⟩
    <;> with_unfolding_all rfl

/-- C6: a node with `display:none`, `visibility:hidden` or `opacity:0`,
or whose bounding box has zero width or height, produces no RenderItem:
`createRenderItem` returns nothing. -/
theorem createRenderItem_skips_invisible_and_zero (o : Oracles) (cfg : LayoutConfig)
    (ps : Option Style) (n : Node) (d : ℕ)
    (h : n.style.display = "none" ∨ n.style.visibility = "hidden" ∨
         n.style.opacity = "0" ∨ n.rect.width = 0 ∨ n.rect.height = 0) :
    createRenderItem o cfg ps n d = none := by
  rcases h with h | h | h | h | h
  · exact createRenderItem_none_of_hidden o cfg ps n d (Or.inl h)
  · exact createRenderItem_none_of_hidden o cfg ps n d (Or.inr (Or.inl h))
  · exact createRenderItem_none_of_hidden o cfg ps n d (Or.inr (Or.inr h))
  · exact createRenderItem_none_of_zeroRect o cfg ps n d (Or.inl h)
  · exact createRenderItem_none_of_zeroRect o cfg ps n d (Or.inr h)

/-- C6 witness: a concrete `display:none` node and a concrete zero-width
node are both skipped. -/
theorem createRenderItem_skips_invisible_and_zero_witness :
    hiddenNode.style.display = "none" ∧
      createRenderItem noOracles cfg0 none hiddenNode 0 = none ∧
      zeroWidthNode.rect.width = 0 ∧
      createRenderItem noOracles cfg0 none zeroWidthNode 0 = none :=
  ⟨rfl,
   createRenderItem_skips_invisible_and_zero noOracles cfg0 none hiddenNode 0
     (Or.inl rfl),
   rfl,
   createRenderItem_skips_invisible_and_zero noOracles cfg0 none zeroWidthNode 0
     (Or.inr (Or.inr (Or.inr (Or.inl rfl))))⟩

/-- C7 counterexample: the claim states rotation extraction is total and
any malformed transform yields 0, but a non-empty string other than
`"none"` that contains no `(` makes `split('(')[1]` undefined and the
function throw a TypeError. -/
theorem getRotation_throws_on_unparenthesized :
    getRotation "matrix" = .throws := by
  rfl

/-- C7 amended: an absent transform (`""` or `"none"`) yields 0; any
string containing `(` never throws — a parenthesis group with fewer than
four comma-separated entries yields 0, and a matrix string yields the
rotation of its two leading parsed components (rounded
`atan2(b,a)` in degrees); but a non-empty string other than `"none"`
without `(` throws a TypeError instead of yielding 0. -/
theorem getRotation_partial_totality :
    getRotation "" = .zero ∧
      getRotation "none" = .zero ∧
      getRotation "translate(3px, 4px)" = .zero ∧
      getRotation "matrix(1, 1, 0, 1, 0, 0)" = .rot (some 1) (some 1) ∧
      (∀ s : String, s.data.contains '(' = true → getRotation s ≠ .throws) ∧
      (∀ s : String, s ≠ "" → s ≠ "none" → s.data.contains '(' = false →
        getRotation s = .throws) := by
  refine ⟨rfl, rfl, by with_unfolding_all rfl, by with_unfolding_all rfl, ?_, ?_⟩
  · intro s hs
    unfold getRotation
    split
    · simp
    · rw [if_neg (by simpa using hs)]
      dsimp only
      split
      · simp
      · simp
  · intro s hne hnn hc
    unfold getRotation
    rw [if_neg (by simp [hne, hnn]), if_pos (by simpa using hc)]

/-- C7 witness for the quantified parts: a parenthesized string never
throws; an unparenthesized one throws. -/
theorem getRotation_partial_totality_witness :
    getRotation "rotate(45deg)" ≠ .throws ∧ getRotation "garbage" = .throws :=
  ⟨getRotation_partial_totality.2.2.2.2.1 "rotate(45deg)" (by decide),
   getRotation_partial_totality.2.2.2.2.2 "garbage" (by decide) (by decide) (by decide)⟩

/-- C8: shape-kind selection — ellipse when the radius reaches half the
smaller dimension (within 1px) and the box is square within 2px;
otherwise roundRect for a positive radius, with the corner fraction
`min 1 (radius / (min w h / 2))` clamped to at most 1; otherwise rect. -/
theorem shapeSelect_classification (radius w h : ℚ) (_hw : 0 < w) (_hh : 0 < h) :
    (radius ≥ min w h / 2 - 1 ∧ |w - h| < 2 →
      shapeSelect radius w h = (.ellipse, none)) ∧
    (¬(radius ≥ min w h / 2 - 1 ∧ |w - h| < 2) → radius > 0 →
      shapeSelect radius w h = (.roundRect, some (min 1 (radius / (min w h / 2)))) ∧
        min 1 (radius / (min w h / 2)) ≤ 1) ∧
    (¬(radius ≥ min w h / 2 - 1 ∧ |w - h| < 2) → ¬(radius > 0) →
      shapeSelect radius w h = (.rect, none)) := by
  refine ⟨?_, ?_, ?_⟩
  · intro hcirc
    rw [shapeSelect, if_pos hcirc]
  · intro hnc hpos
    refine ⟨?_, min_le_left _ _⟩
    rw [shapeSelect, if_neg hnc, if_pos hpos]
  · intro hnc hnpos
    rw [shapeSelect, if_neg hnc, if_neg hnpos]

/-- C8 witness: a 50×50 box with radius 25 is an ellipse; a 100×50 box
with radius 8 is a roundRect with a clamped fraction; a 100×50 box with
radius 0 is a rect. -/
theorem shapeSelect_classification_witness :
    shapeSelect 25 50 50 = (.ellipse, none) ∧
      (shapeSelect 8 100 50 = (.roundRect, some (min 1 (8 / (min 100 50 / 2)))) ∧
        min 1 ((8 : ℚ) / (min 100 50 / 2)) ≤ 1) ∧
      shapeSelect 0 100 50 = (.rect, none) := by
  refine ⟨?_, ?_, ?_⟩
  · exact (shapeSelect_classification 25 50 50 (by norm_num) (by norm_num)).1
      (by constructor <;> norm_num [min_def, abs_sub_lt_iff])
  · exact (shapeSelect_classification 8 100 50 (by norm_num) (by norm_num)).2.1
      (by norm_num [min_def, abs_sub_lt_iff]) (by norm_num)
  · exact (shapeSelect_classification 0 100 50 (by norm_num) (by norm_num)).2.2
      (by norm_num [min_def, abs_sub_lt_iff]) (by norm_num)

/-- C1 counterexample: `textWithStyledChild` has text content and a
single element child — an inline span with its own visible background and
border — yet `isTextContainer` classifies it as a text container: the
function checks only that element children are inline-level and never
inspects child backgrounds or borders, so the claim's "returns false" is
refuted at this input. -/
theorem isTextContainer_ignores_child_styling :
    isTextContainer textWithStyledChild = true ∧
      textWithStyledChild.children = [styledSpan] ∧
      styledSpan.style.backgroundColor = "rgb(255, 0, 0)" ∧
      styledSpan.style.borderWidth = "2px" := by
  refine ⟨by with_unfolding_all rfl, by with_unfolding_all rfl, rfl, rfl⟩

/-- C1 amended: a node with nonempty trimmed text whose element children
are all inline-level is always classified as a text container, regardless
of any child's own background or border — such children are flattened
into text runs rather than rendered as independent styled shapes. -/
theorem isTextContainer_of_allInline (n : Node)
    (htext : (jsTrim n.textContent).length > 0)
    (hinline : n.children.all isInlineEl = true) :
    isTextContainer n = true := by
  unfold isTextContainer
  dsimp only
  rw [if_neg (by simpa using htext.ne')]
  split
  · rfl
  · exact hinline

/-- C1 witness: a concrete text-only block is a text container. -/
theorem isTextContainer_of_allInline_witness :
    isTextContainer plainTextDiv = true :=
  isTextContainer_of_allInline plainTextDiv
    (by with_unfolding_all decide)
    (by with_unfolding_all rfl)

/-- C3 counterexample: a fully transparent (but not transparent-black)
first entry is not skipped — the function returns its descriptor with
opacity 0 — and an inset entry is not skipped either, both contradicting
"inset and fully transparent entries are skipped". -/
theorem shadow_transparent_and_inset_not_skipped :
    getVisibleShadowRaw "rgba(255, 255, 255, 0) 1px 2px 3px" =
      some ⟨"rgba(255, 255, 255, 0)", some 1, some 2, some 3⟩ ∧
      shadowOpacityOut ⟨"rgba(255, 255, 255, 0)", some 1, some 2, some 3⟩ = some 0 ∧
      getVisibleShadowRaw "rgba(0, 0, 0, 0.5) 4px 3px 5px 0px inset" =
        some ⟨"rgba(0, 0, 0, 0.5)", some 4, some 3, some 5⟩ := by
  refine ⟨?_, ?_, ?_⟩ <;> with_unfolding_all rfl

/-- C3 amended: the shadow converter returns the descriptor of the first
entry that does not start with the serialized transparent black
`rgba(0, 0, 0, 0)` and matches the color/x/y/blur pattern (inset and
non-black fully transparent entries are not skipped); distance is
`sqrt(x²+y²)`, the angle is `atan2(y,x)` in degrees normalized to
[0,360) by adding 360 when negative, and blur and distance are scaled by
`0.75 × scale`; the example `rgba(0,0,0,0.5) 4px 3px 5px` yields x=4,
y=3, blur=5, hence distance 5 and angle `atan2(3,4)` in degrees. -/
theorem shadow_conversion :
    getVisibleShadowRaw "rgba(0,0,0,0.5) 4px 3px 5px" = some shadowExampleRaw ∧
      getVisibleShadowRaw "rgba(0, 0, 0, 0) 1px 1px 1px, #abc 4px 3px 5px" =
        some ⟨"#abc", some 4, some 3, some 5⟩ ∧
      shadowDistance 4 3 = 5 ∧
      shadowAngleDeg 4 3 = atan2 3 4 * (180 / Real.pi) ∧
      (∀ x y : ℝ, 0 ≤ shadowAngleDeg x y ∧ shadowAngleDeg x y < 360) ∧
      (∀ scale : ℚ, shadowBlurOut shadowExampleRaw scale = some (5 * (3/4) * scale)) ∧
      (∀ scale : ℚ, shadowOffsetOut 4 3 scale = 5 * (3/4) * (scale : ℝ)) ∧
      shadowOpacityOut shadowExampleRaw = some (1/2) ∧
      shadowColorOut shadowExampleRaw = "000000" := by
  have hdist : shadowDistance 4 3 = 5 := by
    unfold shadowDistance
    rw [show (4 : ℝ) * 4 + 3 * 3 = 5 ^ 2 by norm_num]
    exact Real.sqrt_sq (by norm_num)
  have hrange : ∀ x y : ℝ, 0 ≤ shadowAngleDeg x y ∧ shadowAngleDeg x y < 360 := by
    intro x y
    unfold shadowAngleDeg atan2
    have hπ : (0 : ℝ) < Real.pi := Real.pi_pos
    have hd : (0 : ℝ) < 180 / Real.pi := by positivity
    have h1 : Complex.arg ⟨x, y⟩ ≤ Real.pi := Complex.arg_le_pi _
    have h2 : -Real.pi < Complex.arg ⟨x, y⟩ := Complex.neg_pi_lt_arg _
    have hP : Real.pi * (180 / Real.pi) = 180 := by field_simp
    have hub : Complex.arg ⟨x, y⟩ * (180 / Real.pi) ≤ 180 := by
      calc Complex.arg ⟨x, y⟩ * (180 / Real.pi) ≤ Real.pi * (180 / Real.pi) :=
            mul_le_mul_of_nonneg_right h1 hd.le
        _ = 180 := hP
    have hlb : -180 < Complex.arg ⟨x, y⟩ * (180 / Real.pi) := by
      have hstep := mul_lt_mul_of_pos_right h2 hd
      have hneg : -Real.pi * (180 / Real.pi) = -180 := by rw [neg_mul, hP]
      linarith
    dsimp only
    split
    · constructor <;> linarith
    · rename_i hnn
      constructor
      · exact not_lt.mp hnn
      · linarith
  refine ⟨by with_unfolding_all rfl, by with_unfolding_all rfl, hdist, ?_, hrange,
    fun scale => rfl, ?_, by with_unfolding_all rfl, by with_unfolding_all rfl⟩
  · unfold shadowAngleDeg
    rw [if_neg]
    rw [not_lt]
    apply mul_nonneg
    · exact Complex.arg_nonneg_iff.mpr (by norm_num)
    · positivity
  · intro scale
    unfold shadowOffsetOut
    rw [hdist]

/-- C4: the final render queue is the accumulated RenderItem list sorted
by (zIndex ascending, domOrder ascending): the sorted queue is a
permutation of the accumulated items and is pairwise ordered so that any
two items with equal zIndex appear in ascending domOrder, regardless of
their order in the accumulation list; computed `z-index: auto` maps to
zIndex 0; and `processSlide` hands the file writer exactly this sorted
queue. -/
theorem renderQueue_zOrder (l : List RenderItem) :
    List.Perm (sortRenderQueue l) l ∧
      List.Pairwise
        (fun a b => a.zIndex < b.zIndex ∨
          (a.zIndex = b.zIndex ∧ a.domOrder ≤ b.domOrder))
        (sortRenderQueue l) ∧
      zIndexOfStyle "auto" = 0 ∧
      (∀ (o : Oracles) (root : Node), processSlide o root =
        sortRenderQueue (collectNode o (layoutConfigFor root.rect) none root 0).1) := by
  refine ⟨List.mergeSort_perm l itemLE, ?_, rfl, fun o root => rfl⟩
  have hs := List.sorted_mergeSort itemLE_trans itemLE_total l
  exact List.Pairwise.imp (fun hab => (itemLE_iff _ _).mp hab) hs

/-- C9: the batch entry point produces one slide per resolvable root, in
input order (the output is exactly the resolvable roots mapped through
the slide processor), a single target is treated as a one-element batch,
and an unresolvable root is skipped without affecting the slides of the
other roots — it never aborts the batch. -/
theorem exportToPptx_per_root :
    (∀ (doc : String → Option Node) (o : Oracles) (ts : List Target),
      exportToPptx doc o (.inr ts) =
        (ts.filterMap (resolveRoot doc)).map (processSlide o)) ∧
      (∀ (doc : String → Option Node) (o : Oracles) (ts : List Target),
        (exportToPptx doc o (.inr ts)).length =
          (ts.filterMap (resolveRoot doc)).length) ∧
      (∀ (doc : String → Option Node) (o : Oracles) (t : Target),
        exportToPptx doc o (.inl t) = exportToPptx doc o (.inr [t])) ∧
      (∀ (doc : String → Option Node) (o : Oracles) (pre post : List Target)
          (bad : Target), resolveRoot doc bad = none →
        exportToPptx doc o (.inr (pre ++ bad :: post)) =
          exportToPptx doc o (.inr pre) ++ exportToPptx doc o (.inr post)) := by
  have hmain : ∀ (doc : String → Option Node) (o : Oracles) (ts : List Target),
      exportToPptx doc o (.inr ts) =
        (ts.filterMap (resolveRoot doc)).map (processSlide o) := by
    intro doc o ts
    unfold exportToPptx
    rw [List.map_filterMap]
  refine ⟨hmain, ?_, fun doc o t => rfl, ?_⟩
  · intro doc o ts
    rw [hmain]
    exact List.length_map _ _
  · intro doc o pre post bad hbad
    unfold exportToPptx
    dsimp only
    rw [List.filterMap_append, List.filterMap_cons]
    rw [hbad]
    rfl

/-- C9 witness: a batch with an unresolvable selector between two element
roots yields the same slides as the two resolvable roots alone. -/
theorem exportToPptx_per_root_witness :
    exportToPptx (fun _ => none) noOracles
        (.inr [Target.element hiddenNode, Target.selector "#missing",
          Target.element zeroWidthNode]) =
      exportToPptx (fun _ => none) noOracles (.inr [Target.element hiddenNode]) ++
        exportToPptx (fun _ => none) noOracles (.inr [Target.element zeroWidthNode]) :=
  exportToPptx_per_root.2.2.2 (fun _ => none) noOracles
    [Target.element hiddenNode] [Target.element zeroWidthNode]
    (Target.selector "#missing") rfl

/-- C10: when a text run's computed color parses to a null hex and the
style does not trigger the `background-clip: text` gradient fallback,
`getTextStyle` emits the run with the concrete color `"000000"`; and the
emitted run color is never the empty string. -/
theorem getTextStyle_transparent_color_black :
    (∀ (style : Style) (scale : ℚ),
      (parseColor style.color).hex = none →
      ¬(jsOrStr style.webkitBackgroundClip style.backgroundClip = "text" ∧
        (getGradientFallbackColor style.backgroundImage).isSome) →
      (getTextStyle style scale).color = "000000") ∧
      ∀ (style : Style) (scale : ℚ), (getTextStyle style scale).color ≠ "" := by
  constructor
  · intro style scale hnone htrig
    unfold getTextStyle
    dsimp only
    split
    · rename_i hcond
      simp only [Bool.and_eq_true, decide_eq_true_eq] at hcond
      rcases hfb : getGradientFallbackColor style.backgroundImage with _ | f
      · simp [jsOrOptStr, hnone]
      · exact absurd ⟨hcond.2, by rw [hfb]; rfl⟩ htrig
    · simp [jsOrOptStr, hnone]
  · intro style scale
    unfold getTextStyle
    dsimp only
    exact jsOrOptStr_default_ne_empty _

/-- C10 witness: a concrete style with `color: transparent` and no
`background-clip: text` renders text runs in black. -/
theorem getTextStyle_transparent_color_black_witness :
    (parseColor transparentTextStyle.color).hex = none ∧
      (getTextStyle transparentTextStyle 1).color = "000000" :=
  ⟨rfl,
   getTextStyle_transparent_color_black.1 transparentTextStyle 1 rfl
     (by
       rintro ⟨hclip, -⟩
       exact absurd hclip (by with_unfolding_all decide))⟩

end DomToPptx
